import Mathlib

/-!
Verification development for the Uppe. decentralized uptime-monitoring
repository.  The frontend design-system code (theme CSS, `getClasses`) and
the SQLite schema are embedded directly from the sources; the Rust
monitoring service (signer, ingestor, assignment engine, aggregator) is not
part of the source excerpt, so those components are modelled from the
specification document, as marked in the individual doc comments.
-/

namespace Uppe

/-! ## Design system: themes (client `themes.ts`) -/

/-- The `Theme` interface from `themes.ts`: six groups of named color
strings. -/
structure ThemeColors where
  bgPrimary : String
  bgSecondary : String
  bgTertiary : String
  bgOverlay : String
  bgElevated : String
  textPrimary : String
  textSecondary : String
  textTertiary : String
  textInverse : String
  borderPrimary : String
  borderSecondary : String
  borderFocus : String
  interactivePrimary : String
  interactivePrimaryHover : String
  interactiveSecondary : String
  interactiveSecondaryHover : String
  interactiveDanger : String
  interactiveDangerHover : String
  statusSuccess : String
  statusWarning : String
  statusError : String
  statusInfo : String
  statusNeutral : String
  accentPrimary : String
  accentSecondary : String
  accentTertiary : String
  deriving Repr, DecidableEq

/-- Structure holding the colors, mirroring `Theme` (its only field is
`colors`). -/
structure Theme where
  colors : ThemeColors
  deriving Repr, DecidableEq

/-- The `rosePineTheme` constant from `themes.ts`. -/
def rosePineTheme : Theme :=
  { colors :=
    { bgPrimary := "#191724"
      bgSecondary := "#1f1d2e"
      bgTertiary := "#26233a"
      bgOverlay := "#6e6a86"
      bgElevated := "#393552"
      textPrimary := "#e0def4"
      textSecondary := "#908caa"
      textTertiary := "#6e6a86"
      textInverse := "#191724"
      borderPrimary := "#393552"
      borderSecondary := "#26233a"
      borderFocus := "#c4a7e7"
      interactivePrimary := "#eb6f92"
      interactivePrimaryHover := "#f6c177"
      interactiveSecondary := "#393552"
      interactiveSecondaryHover := "#524f67"
      interactiveDanger := "#eb6f92"
      interactiveDangerHover := "#f6c177"
      statusSuccess := "#9ccfd8"
      statusWarning := "#f6c177"
      statusError := "#eb6f92"
      statusInfo := "#c4a7e7"
      statusNeutral := "#908caa"
      accentPrimary := "#c4a7e7"
      accentSecondary := "#9ccfd8"
      accentTertiary := "#31748f" } }

/-- The ordered list of `--color-*` custom properties emitted inside the
`:root` block of `getThemeCSS` (`theme-init.ts`, the server-side theme
script), as (property name, value) pairs drawn from the theme the function
captures.  In the source the function always reads `rosePineTheme`; the
property-to-field mapping is a function of that theme value, embedded here
with the theme as an argument. -/
def getThemeCSSColorVars (t : Theme) : List (String × String) :=
  [ ("--color-bg-primary", t.colors.bgPrimary)
  , ("--color-bg-secondary", t.colors.bgSecondary)
  , ("--color-bg-tertiary", t.colors.bgTertiary)
  , ("--color-bg-overlay", t.colors.bgOverlay)
  , ("--color-bg-elevated", t.colors.bgElevated)
  , ("--color-text-primary", t.colors.textPrimary)
  , ("--color-text-secondary", t.colors.textSecondary)
  , ("--color-text-tertiary", t.colors.textTertiary)
  , ("--color-text-inverse", t.colors.textInverse)
  , ("--color-border-primary", t.colors.borderPrimary)
  , ("--color-border-secondary", t.colors.borderSecondary)
  , ("--color-border-focus", t.colors.borderFocus)
  , ("--color-interactive-primary", t.colors.interactivePrimary)
  , ("--color-interactive-primary-hover", t.colors.interactivePrimaryHover)
  , ("--color-interactive-secondary", t.colors.interactiveSecondary)
  , ("--color-interactive-secondary-hover", t.colors.interactiveSecondaryHover)
  , ("--color-interactive-danger", t.colors.interactiveDanger)
  , ("--color-interactive-danger-hover", t.colors.interactiveDangerHover)
  , ("--color-status-success", t.colors.statusSuccess)
  , ("--color-status-warning", t.colors.statusWarning)
  , ("--color-status-error", t.colors.statusError)
  , ("--color-status-info", t.colors.statusInfo)
  , ("--color-status-neutral", t.colors.statusNeutral)
  , ("--color-accent-primary", t.colors.accentPrimary)
  , ("--color-accent-secondary", t.colors.accentSecondary)
  , ("--color-accent-tertiary", t.colors.accentTertiary) ]

/-- The ordered sequence of `setProperty` calls for color variables made by
`applyThemeToDOM` (`theme-client.ts`), as (property name, value) pairs. -/
def applyThemeToDOMColorVars (t : Theme) : List (String × String) :=
  [ ("--color-bg-primary", t.colors.bgPrimary)
  , ("--color-bg-secondary", t.colors.bgSecondary)
  , ("--color-bg-tertiary", t.colors.bgTertiary)
  , ("--color-bg-overlay", t.colors.bgOverlay)
  , ("--color-bg-elevated", t.colors.bgElevated)
  , ("--color-text-primary", t.colors.textPrimary)
  , ("--color-text-secondary", t.colors.textSecondary)
  , ("--color-text-tertiary", t.colors.textTertiary)
  , ("--color-text-inverse", t.colors.textInverse)
  , ("--color-border-primary", t.colors.borderPrimary)
  , ("--color-border-secondary", t.colors.borderSecondary)
  , ("--color-border-focus", t.colors.borderFocus)
  , ("--color-interactive-primary", t.colors.interactivePrimary)
  , ("--color-interactive-primary-hover", t.colors.interactivePrimaryHover)
  , ("--color-interactive-secondary", t.colors.interactiveSecondary)
  , ("--color-interactive-secondary-hover", t.colors.interactiveSecondaryHover)
  , ("--color-interactive-danger", t.colors.interactiveDanger)
  , ("--color-interactive-danger-hover", t.colors.interactiveDangerHover)
  , ("--color-status-success", t.colors.statusSuccess)
  , ("--color-status-warning", t.colors.statusWarning)
  , ("--color-status-error", t.colors.statusError)
  , ("--color-status-info", t.colors.statusInfo)
  , ("--color-status-neutral", t.colors.statusNeutral)
  , ("--color-accent-primary", t.colors.accentPrimary)
  , ("--color-accent-secondary", t.colors.accentSecondary)
  , ("--color-accent-tertiary", t.colors.accentTertiary) ]

/-- Full `applyThemeToDOM`: after the color variables it iterates
`Object.entries` of the `spacing`, `typography.sizes` and `borderRadius`
token maps (from `tokens.ts`, outside the excerpt, hence parameters here),
setting `--spacing-*`, `--font-size-*` and `--border-radius-*`. -/
def applyThemeToDOM (t : Theme) (spacing fontSizes radii : List (String × String)) :
    List (String × String) :=
  applyThemeToDOMColorVars t
    ++ spacing.map (fun kv => ("--spacing-" ++ kv.1, kv.2))
    ++ fontSizes.map (fun kv => ("--font-size-" ++ kv.1, kv.2))
    ++ radii.map (fun kv => ("--border-radius-" ++ kv.1, kv.2))

/-! ## Design system: component classes (`components.ts`, `helpers.ts`) -/

/-- The runtime shape `getClasses` reads from a `components` entry
(`ComponentStyles` in `helpers.ts`): optional `base`, the `variants` and
`sizes` string maps, and the `labelInline` key used by the form special
case.  Other keys of an entry (e.g. `card.header`) are never read by
`getClasses` and are not represented. -/
structure ComponentStyles where
  base : Option String := none
  variants : List (String × String) := []
  sizes : List (String × String) := []
  labelInline : Option String := none
  deriving Repr, DecidableEq

/-- The `components` object from `components.ts`, restricted to the fields
`getClasses` reads, as a name-indexed association list.  JavaScript object
keys are strings, so the numeric `heading.sizes` keys appear as "1".."6". -/
def components : List (String × ComponentStyles) :=
  [ ("linkButton",
     { base := some "inline-flex items-center transition-colors focus:outline-none"
       variants :=
         [ ("primary", "text-accent-primary hover:text-primary")
         , ("secondary", "text-secondary hover:text-primary")
         , ("danger", "text-status-error hover:text-status-error/80") ]
       sizes := [ ("sm", "text-sm"), ("md", "text-base"), ("lg", "text-lg") ] })
  , ("badge",
     { base := some "inline-flex items-center font-medium rounded-full"
       variants :=
         [ ("primary", "bg-accent-primary text-inverse")
         , ("secondary", "bg-surface-secondary text-primary border border-border-subtle")
         , ("success", "bg-status-online text-inverse")
         , ("warning", "bg-status-warning text-inverse")
         , ("error", "bg-status-error text-inverse")
         , ("info", "bg-status-info text-inverse")
         , ("neutral", "bg-surface-elevated text-secondary") ]
       sizes :=
         [ ("sm", "px-2 py-0.5 text-xs")
         , ("md", "px-2.5 py-1 text-sm")
         , ("lg", "px-3 py-1.5 text-base") ] })
  , ("button",
     { base := some "inline-flex items-center justify-center font-medium rounded-lg transition-colors focus:outline-none focus:ring-2 focus:ring-offset-2 disabled:opacity-50 disabled:cursor-not-allowed"
       variants :=
         [ ("primary", "bg-accent-primary text-inverse hover:bg-accent-primary-hover focus:ring-accent-primary")
         , ("secondary", "bg-surface-secondary border border-border-subtle text-primary hover:bg-surface-elevated focus:ring-border-subtle")
         , ("danger", "bg-status-error text-inverse hover:opacity-90 focus:ring-status-error") ]
       sizes :=
         [ ("sm", "px-2.5 py-1.5 text-xs")
         , ("md", "px-4 py-2 text-sm")
         , ("lg", "px-6 py-3 text-base") ] })
  , ("card",
     { base := some "p-6 bg-surface-secondary border border-border-primary rounded-lg overflow-hidden" })
  , ("form",
     { labelInline := some "text-sm text-primary" })
  , ("alert",
     { base := some "p-4 rounded-lg border"
       variants :=
         [ ("info", "bg-surface-secondary border-status-info text-primary")
         , ("success", "bg-surface-secondary border-status-online text-primary")
         , ("warning", "bg-surface-secondary border-status-warning text-primary")
         , ("error", "bg-surface-secondary border-status-error text-primary") ] })
  , ("heading",
     { base := some "font-semibold text-primary"
       sizes :=
         [ ("1", "text-4xl"), ("2", "text-3xl"), ("3", "text-2xl")
         , ("4", "text-xl"), ("5", "text-lg"), ("6", "text-base") ] })
  , ("statusBadge",
     { base := some "inline-flex items-center gap-1.5"
       variants :=
         [ ("online", "text-status-online")
         , ("offline", "text-status-error")
         , ("warning", "text-status-warning")
         , ("error", "text-status-error")
         , ("unknown", "text-tertiary") ] })
  , ("progressBar",
     { base := some "w-full bg-surface-elevated rounded-full overflow-hidden"
       variants :=
         [ ("primary", "bg-accent-primary")
         , ("success", "bg-status-online")
         , ("warning", "bg-status-warning")
         , ("error", "bg-status-error") ] })
  , ("circularProgress",
     { base := some "rounded-full"
       variants :=
         [ ("primary", "text-accent-primary")
         , ("success", "text-status-online")
         , ("warning", "text-status-warning")
         , ("error", "text-status-error") ]
       sizes := [ ("sm", "w-4 h-4"), ("md", "w-8 h-8"), ("lg", "w-12 h-12") ] })
  , ("table",
     { base := some "w-full border-collapse" }) ]

/-- Association-list lookup for the components map (`components[component]`). -/
def lookupComponent (name : String) : Option ComponentStyles :=
  (components.find? (fun e => e.1 == name)).map (·.2)

/-- The options record accepted by `getClasses` (`ComponentOptions`):
`variant?`, `size?`, `inline?`.  Extra per-component boolean keys are never
read by the function body. -/
structure ClassOptions where
  variant : Option String := none
  size : Option String := none
  inline : Bool := false
  deriving Repr, DecidableEq

/-- `getClasses` from `helpers.ts`.  A missing component returns `className`
unchanged; otherwise start from `base || ''`, append truthy variant and size
lookups, replace everything with `labelInline` for `form` with
`options.inline`, then append a non-empty `className`. -/
def getClasses (component : String) (options : ClassOptions) (className : String := "") :
    String :=
  match lookupComponent component with
  | none => className
  | some cs =>
    let classes := cs.base.getD ""
    let classes :=
      match options.variant with
      | some v =>
        match cs.variants.find? (fun e => e.1 == v) with
        | some e => if e.2 = "" then classes else classes ++ " " ++ e.2
        | none => classes
      | none => classes
    let classes :=
      match options.size with
      | some sz =>
        match cs.sizes.find? (fun e => e.1 == sz) with
        | some e => if e.2 = "" then classes else classes ++ " " ++ e.2
        | none => classes
      | none => classes
    let classes :=
      if component == "form" && options.inline then
        match cs.labelInline with
        | some li => if li = "" then classes else li
        | none => classes
      else classes
    if className = "" then classes else classes ++ " " ++ className

/-! ## Database schema (`schema.sql`, "Source of Truth") -/

/-- A row of the `monitors` table (configuration columns; the
auto-increment `id` is internal and omitted). -/
structure MonitorRow where
  uuid : String
  name : String
  target : String
  check_type : String
  interval_seconds : Nat
  timeout_seconds : Nat
  enabled : Bool
  created_at : Nat
  updated_at : Nat
  deriving Repr, DecidableEq

/-- A row of the `monitor_results` table (results produced by this node).
Its `signature` column is a nullable BLOB. -/
structure MonitorResultRow where
  monitor_uuid : String
  timestamp : Nat
  status : String
  latency_ms : Option Nat
  status_code : Option Nat
  error_message : Option String
  peer_id : String
  signature : Option (List Nat)
  created_at : Nat
  deriving Repr, DecidableEq

/-- A row of the `peer_results` table (results received from remote peers).
`signature` is NOT NULL and the row carries the `verified` flag
(0=unverified, 1=verified, DEFAULT 0). -/
structure PeerResultRow where
  monitor_uuid : String
  timestamp : Nat
  status : String
  latency_ms : Option Nat
  status_code : Option Nat
  error_message : Option String
  peer_id : String
  signature : List Nat
  verified : Bool
  created_at : Nat
  deriving Repr, DecidableEq

/-- The three result-related tables of the schema. -/
structure Db where
  monitors : List MonitorRow
  monitor_results : List MonitorResultRow
  peer_results : List PeerResultRow
  deriving Repr, DecidableEq

/-- SQLite semantics of `DELETE FROM monitors WHERE uuid = ?` under the
declared constraints: `monitor_results` has
`FOREIGN KEY (monitor_uuid) REFERENCES monitors(uuid) ON DELETE CASCADE`,
so its matching rows are deleted with the monitor; the `peer_results` table
declares no foreign key at all, so its rows are untouched. -/
def deleteMonitor (db : Db) (uuid : String) : Db :=
  { monitors := db.monitors.filter (fun m => m.uuid != uuid)
    monitor_results := db.monitor_results.filter (fun r => r.monitor_uuid != uuid)
    peer_results := db.peer_results }

/-! ## Identity & Signer/Verifier

Modelled from the spec: the Rust service's crypto module is not in the
source excerpt.  §4.2 gives the contract `sign(payload: canonical bytes) ->
signature`, `verify(payload, signature, peer_id) -> bool`, with a
deterministic byte encoding of
`{monitor_uuid, timestamp, status, latency_ms, status_code, error_message,
peer_id}` (fixed field order and absent-field encoding).  Signatures are
modelled symbolically: a signature is an unforgeable token binding the
signer's public key to the signed bytes, and verification checks exactly
that binding. -/

/-- The unsigned payload fields of a `Result` (§3, §4.2). -/
structure ResultPayload where
  monitor_uuid : String
  timestamp : Nat
  status : String
  latency_ms : Option Nat
  status_code : Option Nat
  error_message : Option String
  peer_id : String
  deriving Repr, DecidableEq

/-- Length-prefixed encoding of a string field. -/
def encStr (s : String) : List Nat :=
  s.length :: s.data.map Char.toNat

/-- Fixed absent-field encoding for an optional numeric field: `[0]` when
absent, `[1, n]` when present. -/
def encOptNat : Option Nat → List Nat
  | none => [0]
  | some n => [1, n]

/-- Fixed absent-field encoding for an optional string field. -/
def encOptStr : Option String → List Nat
  | none => [0]
  | some s => 1 :: encStr s

/-- Modelled from the spec: the deterministic canonical byte encoding of a
result payload, fields in the fixed order of §4.2. -/
def canonicalBytes (p : ResultPayload) : List Nat :=
  encStr p.monitor_uuid ++ [p.timestamp] ++ encStr p.status
    ++ encOptNat p.latency_ms ++ encOptNat p.status_code
    ++ encOptStr p.error_message ++ encStr p.peer_id

/-- Modelled from the spec: public-key derivation from a secret key.  Only
determinism matters to the claims, so it is a plain injective tagging. -/
def derivePk (sk : String) : String :=
  "pk:" ++ sk

/-- A symbolic signature: the signer's public key together with the exact
bytes that were signed. -/
structure Sig where
  signerPk : String
  signedBytes : List Nat
  deriving Repr, DecidableEq

/-- Modelled from the spec: `sign` over canonical bytes with a secret key
(§4.2, the node's long-lived keypair). -/
def signBytes (sk : String) (msg : List Nat) : Sig :=
  { signerPk := derivePk sk, signedBytes := msg }

/-- Modelled from the spec: `verify(payload bytes, signature, peer_id)`
checks that the signature was produced over exactly these bytes by the key
whose public half is `peer_id`. -/
def verifyBytes (msg : List Nat) (sig : Sig) (peerId : String) : Bool :=
  sig.signerPk == peerId && sig.signedBytes == msg

/-- A node identity holding the long-lived secret key; its `peer_id` is the
derived public key. -/
structure Identity where
  sk : String
  deriving Repr, DecidableEq

/-- The node's own peer id (its public key). -/
def Identity.peerId (id : Identity) : String :=
  derivePk id.sk

/-- `sign` of §4.2: sign the canonical bytes of a payload. -/
def Identity.sign (id : Identity) (p : ResultPayload) : Sig :=
  signBytes id.sk (canonicalBytes p)

/-- `verify` of §4.2 at the payload level. -/
def verify (p : ResultPayload) (sig : Sig) (peerId : String) : Bool :=
  verifyBytes (canonicalBytes p) sig peerId

/-! ## ResultIngestor

Modelled from the spec: the Rust service's ingestion path is not in the
source excerpt.  §4.4 fixes the pipeline: structural validation → signature
verification (§4.2) → duplicate check on `(monitor_uuid, peer_id,
timestamp)` (a no-op, not an error) → staleness/skew check → persist as
`PeerResult{verified=true}` and forward to the aggregator.  Rejection
reasons are the enumerated four. -/

/-- An inbound raw result message: a payload plus the sender's signature. -/
structure RawResult extends ResultPayload where
  signature : Sig
  deriving Repr, DecidableEq

/-- A persisted peer result: the raw result plus the `verified` flag of the
`peer_results` table. -/
structure StoredPeerResult extends RawResult where
  verified : Bool
  deriving Repr, DecidableEq

/-- The enumerated rejection reasons of §4.4. -/
inductive RejectReason where
  | InvalidSignature
  | MalformedPayload
  | ReplayOrSkew
  | UnknownMonitor
  deriving Repr, DecidableEq

/-- `ingest(raw_result) -> Accepted | Rejected(reason)` (§4.4). -/
inductive IngestOutcome where
  | accepted
  | rejected (reason : RejectReason)
  deriving Repr, DecidableEq

/-- The ingestion-relevant node state: known monitor uuids, the stored
`peer_results`, the queue of results forwarded to the aggregator, the local
wall clock and the bounded skew window of §4.2. -/
structure NodeState where
  monitors : List String
  peer_results : List StoredPeerResult
  aggregatorQueue : List RawResult
  now : Nat
  maxSkew : Nat
  deriving Repr, DecidableEq

/-- The five legal `status` strings (schema "Status Values Reference"). -/
def statusEnum : List String :=
  ["Up", "Down", "Timeout", "Error", "Degraded"]

/-- Structural validation of §4.4: required fields present, `status` in the
known enum, `monitor_uuid` syntactically valid (modelled as non-empty). -/
def structuralOk (r : RawResult) : Bool :=
  statusEnum.contains r.status && r.monitor_uuid != ""

/-- The idempotency key comparison of §4.4: a stored row matches a raw
result when they share `(monitor_uuid, peer_id, timestamp)`. -/
def sameKey (r : RawResult) (q : StoredPeerResult) : Bool :=
  q.monitor_uuid == r.monitor_uuid && q.peer_id == r.peer_id
    && q.timestamp == r.timestamp

/-- Duplicate check of §4.4: a row with the same
`(monitor_uuid, peer_id, timestamp)` is already stored. -/
def isDuplicate (st : NodeState) (r : RawResult) : Bool :=
  st.peer_results.any (sameKey r)

/-- Replay/skew defense of §4.2: the timestamp is within the bounded skew
window around local wall-clock time. -/
def withinSkew (st : NodeState) (ts : Nat) : Bool :=
  (if st.now ≤ ts then ts - st.now else st.now - ts) ≤ st.maxSkew

/-- Modelled from the spec: `ingest` (§4.4).  Checks run in the documented
order; on success the result is persisted with `verified = true` and
forwarded to the aggregator; the duplicate branch is an accepted no-op. -/
def ingest (st : NodeState) (r : RawResult) : IngestOutcome × NodeState :=
  if ¬ structuralOk r then
    (.rejected .MalformedPayload, st)
  else if ¬ st.monitors.contains r.monitor_uuid then
    (.rejected .UnknownMonitor, st)
  else if ¬ verify r.toResultPayload r.signature r.peer_id then
    (.rejected .InvalidSignature, st)
  else if isDuplicate st r then
    (.accepted, st)
  else if ¬ withinSkew st r.timestamp then
    (.rejected .ReplayOrSkew, st)
  else
    (.accepted,
      { st with
        peer_results := { toRawResult := r, verified := true } :: st.peer_results
        aggregatorQueue := r :: st.aggregatorQueue })

/-- Number of stored peer-result rows sharing the idempotency key
`(monitor_uuid, peer_id, timestamp)` of a raw result. -/
def countKey (st : NodeState) (r : RawResult) : Nat :=
  (st.peer_results.filter (sameKey r)).length

/-! ## Result status values and probe-outcome derivation

Modelled from the spec: the Rust ProbeExecutor is not in the source
excerpt.  The five status values come from the schema's "Status Values
Reference"; the derivation rules from §3 (`Up` on success within `timeout`;
`Timeout` if no response before `timeout` elapses; `Error` for
transport/DNS failure; `Degraded` if successful but `latency_ms` exceeds
the configured degraded-threshold). -/

/-- The `status` enum of the schema: 'Up', 'Down', 'Timeout', 'Error',
'Degraded'. -/
inductive Status where
  | Up
  | Down
  | Timeout
  | Error
  | Degraded
  deriving Repr, DecidableEq, BEq

/-- The TEXT value stored for a status (schema stores status as TEXT). -/
def Status.asString : Status → String
  | .Up => "Up"
  | .Down => "Down"
  | .Timeout => "Timeout"
  | .Error => "Error"
  | .Degraded => "Degraded"

/-- Modelled from the spec: the raw probe outcome delivered by the external
`Prober` capability (§6), as the derivation of §3 distinguishes it: a
response within the timeout (with its latency and status code), no
response before the timeout elapsed, or a transport/DNS failure. -/
inductive RawOutcome where
  | responded (latency_ms : Nat) (status_code : Nat)
  | timedOut
  | transportError (message : String)
  deriving Repr, DecidableEq

/-- Modelled from the spec: the `status` derivation of §3, mapping a raw
probe outcome and the configured degraded-threshold to a result status. -/
def deriveStatus (o : RawOutcome) (degradedThreshold : Nat) : Status :=
  match o with
  | .responded latency _ => if degradedThreshold < latency then .Degraded else .Up
  | .timedOut => .Timeout
  | .transportError _ => .Error

/-! ## ConsensusAggregator

Modelled from the spec: the Rust aggregator is not in the source excerpt.
§4.5: per monitor, keep the most recent accepted result per reporting
`peer_id`; reports older than the freshness window `W` are silent; with
fewer fresh reports than the quorum `Q` (default: majority of the
assignment set) the aggregate is `Unknown`; otherwise the majority status
among fresh reports, ties breaking toward the more severe status
(`Down` > `Degraded` > `Up`). -/

/-- Aggregate status exposed by `status_of` (§4.5/§6). -/
inductive AggStatus where
  | Up
  | Down
  | Degraded
  | Unknown
  deriving Repr, DecidableEq, BEq

/-- The three aggregate classes a fresh report can vote for. -/
inductive AggClass where
  | up
  | degraded
  | down
  deriving Repr, DecidableEq, BEq

/-- The aggregate status named by a class. -/
def AggClass.toAgg : AggClass → AggStatus
  | .up => .Up
  | .degraded => .Degraded
  | .down => .Down

/-- Severity order of §4.5: `Down` > `Degraded` > `Up`. -/
def sev : AggClass → Nat
  | .up => 0
  | .degraded => 1
  | .down => 2

/-- Modelled from the spec: how a report's status votes in the aggregate.
`Up` and `Degraded` vote for themselves; `Down`, `Timeout` and `Error` all
record a failed check (§7: transport failures are recorded as
`Down`/`Timeout`/`Error`) and vote for `Down`. -/
def classifyStatus : Status → AggClass
  | .Up => .up
  | .Degraded => .degraded
  | .Down => .down
  | .Timeout => .down
  | .Error => .down

/-- The freshest known report of one reporting peer for a monitor (§4.5
keeps the most recent accepted result per `peer_id`). -/
structure Report where
  peer_id : String
  timestamp : Nat
  status : Status
  deriving Repr, DecidableEq

/-- A report is fresh when it is at most `W` old (§4.5). -/
def isFresh (now W : Nat) (rep : Report) : Bool :=
  now - rep.timestamp ≤ W

/-- The fresh reports within the window. -/
def freshReports (now W : Nat) (reports : List Report) : List Report :=
  reports.filter (isFresh now W)

/-- Default quorum threshold: a majority of the assignment set (§4.5). -/
def quorumThreshold (assignSize : Nat) : Nat :=
  assignSize / 2 + 1

/-- Number of fresh reports voting for a class. -/
def countClass (k : AggClass) (reports : List Report) : Nat :=
  (reports.filter fun rep => classifyStatus rep.status == k).length

/-- Majority choice with ties toward the more severe class (§4.5):
`down` whenever its count is at least both others, then `degraded`
whenever its count is at least `up`'s, else `up`. -/
def pickStatus (cUp cDeg cDown : Nat) : AggClass :=
  if cDeg ≤ cDown ∧ cUp ≤ cDown then .down
  else if cUp ≤ cDeg then .degraded
  else .up

/-- Modelled from the spec: `status_of(monitor_uuid)` (§4.5/§6), given the
monitor's per-peer freshest reports, the size of its assignment set, the
local clock and the freshness window.  Returns the aggregate status and
`contributing_peer_count`. -/
def statusOf (assignSize now W : Nat) (reports : List Report) : AggStatus × Nat :=
  if (freshReports now W reports).length < quorumThreshold assignSize then
    (.Unknown, (freshReports now W reports).length)
  else
    ((pickStatus
        (countClass .up (freshReports now W reports))
        (countClass .degraded (freshReports now W reports))
        (countClass .down (freshReports now W reports))).toAgg,
      (freshReports now W reports).length)

/-! ## AssignmentEngine

Modelled from the spec: the Rust assignment engine is not in the source
excerpt.  §4.1: deterministic hashing of `monitor_uuid` onto a ring of
`known_peers` (consistent hashing), taking the first `redundancy_factor`
distinct peers walking clockwise from the hash point, skipping peers known
to be offline; with no known peers it degrades to the local node only. -/

/-- A peer directory entry as the engine consumes it: the peer id and
whether the peer is known to be online. -/
structure Peer where
  id : String
  online : Bool
  deriving Repr, DecidableEq, BEq

/-- Deterministic string hash onto the ring (positions modulo 2^32). -/
def strHash (s : String) : Nat :=
  s.data.foldl (fun a c => (a * 31 + c.toNat) % 4294967296) 17

/-- Insert a peer into a ring-ordered list (by hash position, then id). -/
def insertPeer (p : Peer) : List Peer → List Peer
  | [] => [p]
  | q :: qs =>
    if strHash p.id < strHash q.id ∨ (strHash p.id = strHash q.id ∧ p.id ≤ q.id) then
      p :: q :: qs
    else
      q :: insertPeer p qs

/-- Sort peers into ring order. -/
def sortPeers : List Peer → List Peer
  | [] => []
  | p :: ps => insertPeer p (sortPeers ps)

/-- Walk the ring collecting up to `budget` distinct peer ids. -/
def walkTake (budget : Nat) (ps : List Peer) (acc : List String) : List String :=
  match budget, ps with
  | 0, _ => acc.reverse
  | _ + 1, [] => acc.reverse
  | n + 1, p :: rest =>
    if acc.contains p.id then walkTake (n + 1) rest acc
    else walkTake n rest (p.id :: acc)

/-- Modelled from the spec: `assign(monitor_uuid, known_peers,
redundancy_factor)` (§4.1), a pure function of its inputs.  The local
node's id is the engine's configuration, used only for the empty-peer-set
degradation. -/
def assign (localId : String) (monitor_uuid : String) (known_peers : List Peer)
    (redundancy : Nat) : List String :=
  if known_peers.isEmpty then [localId]
  else
    let ring := sortPeers (known_peers.filter (·.online))
    let h := strHash monitor_uuid
    let ordered :=
      ring.filter (fun p => decide (h ≤ strHash p.id))
        ++ ring.filter (fun p => decide (strHash p.id < h))
    walkTake redundancy ordered []

/-- The engine's runtime state: its configured local id and the assignment
cache of §3 ("recomputed, not persisted as ground truth ... cached for
efficiency"). -/
structure EngineState where
  localId : String
  cache : List ((String × List Peer × Nat) × List String)

/-- Cache consistency: every cached entry holds exactly the value `assign`
computes for its key. -/
def cacheOk (st : EngineState) : Prop :=
  ∀ e ∈ st.cache, e.2 = assign st.localId e.1.1 e.1.2.1 e.1.2.2

/-- Cache lookup. -/
def findCache (cache : List ((String × List Peer × Nat) × List String))
    (k : String × List Peer × Nat) : Option (List String) :=
  match cache with
  | [] => none
  | e :: es => if e.1 = k then some e.2 else findCache es k

/-- An engine invocation: serve from the cache on a hit, otherwise compute
`assign` and cache the result. -/
def engineAssign (st : EngineState) (m : String) (ps : List Peer) (r : Nat) :
    List String × EngineState :=
  match findCache st.cache (m, ps, r) with
  | some out => (out, st)
  | none =>
    (assign st.localId m ps r,
      { st with cache := ((m, ps, r), assign st.localId m ps r) :: st.cache })

/-! ## Concrete example data used by witnesses and counterexamples -/

/-- A database with one monitor, one local result and one verified peer
result, all for monitor uuid "m1". -/
def exampleDb : Db :=
  { monitors :=
      [ { uuid := "m1", name := "example", target := "https://example.com"
          check_type := "Http", interval_seconds := 30, timeout_seconds := 10
          enabled := true, created_at := 0, updated_at := 0 } ]
    monitor_results :=
      [ { monitor_uuid := "m1", timestamp := 50, status := "Up"
          latency_ms := some 12, status_code := some 200, error_message := none
          peer_id := "pk:self", signature := none, created_at := 50 } ]
    peer_results :=
      [ { monitor_uuid := "m1", timestamp := 60, status := "Up"
          latency_ms := some 20, status_code := some 200, error_message := none
          peer_id := "pk:peer", signature := [1, 2, 3], verified := true
          created_at := 61 } ] }

/-- A well-formed example result payload for monitor "m1" signed by the
peer holding secret key "sk1". -/
def examplePayload : ResultPayload :=
  { monitor_uuid := "m1", timestamp := 100, status := "Up"
    latency_ms := some 20, status_code := some 200, error_message := none
    peer_id := derivePk "sk1" }

/-- The example payload correctly signed by its sender. -/
def exampleRaw : RawResult :=
  { toResultPayload := examplePayload
    signature := Identity.sign ⟨"sk1"⟩ examplePayload }

/-- The example payload carrying a signature from the wrong key. -/
def badRaw : RawResult :=
  { toResultPayload := examplePayload
    signature := { signerPk := "pk:evil", signedBytes := [0] } }

/-- An ingestion state knowing monitor "m1", with nothing stored yet. -/
def exampleState : NodeState :=
  { monitors := ["m1"], peer_results := [], aggregatorQueue := []
    now := 100, maxSkew := 30 }

/-- The row ingestion persists for `exampleRaw`. -/
def exampleStoredRow : StoredPeerResult :=
  { toRawResult := exampleRaw, verified := true }

/-- Seven fresh reports for one monitor: five peers reporting `Up` and two
reporting `Down` (the §8 majority example). -/
def exampleReports : List Report :=
  [ ⟨"p1", 95, .Up⟩, ⟨"p2", 96, .Up⟩, ⟨"p3", 97, .Up⟩, ⟨"p4", 98, .Up⟩
  , ⟨"p5", 99, .Up⟩, ⟨"p6", 95, .Down⟩, ⟨"p7", 96, .Down⟩ ]

/-- Five assigned peers of which only one has reported within the window
(the §8 insufficient-quorum example): at time 1000 with window 60, only
the report at 990 is fresh. -/
def exampleStaleReports : List Report :=
  [ ⟨"p1", 990, .Up⟩, ⟨"p2", 100, .Up⟩, ⟨"p3", 100, .Up⟩
  , ⟨"p4", 100, .Down⟩, ⟨"p5", 100, .Up⟩ ]

/-- An example peer directory snapshot with one offline peer. -/
def examplePeers : List Peer :=
  [⟨"pA", true⟩, ⟨"pB", true⟩, ⟨"pC", false⟩, ⟨"pD", true⟩]

/-- An engine with an empty assignment cache. -/
def engineA : EngineState :=
  { localId := "self", cache := [] }

/-- An engine whose cache already holds the assignment for
("m1", examplePeers, 2). -/
def engineB : EngineState :=
  { localId := "self"
    cache := [(("m1", examplePeers, 2), assign "self" "m1" examplePeers 2)] }

/-- Selects one of the three per-class counts. -/
def classCount : AggClass → Nat → Nat → Nat → Nat
  | .up, cU, _, _ => cU
  | .degraded, _, cD, _ => cD
  | .down, _, _, cDn => cDn

/-! ## Theorems -/

/-- C9 counterexample: `getThemeCSS` emits 26 `--color-*` custom
properties, not 25 as claimed: the `:root` block has 5 background + 4 text
+ 3 border + 6 interactive + 5 status + 3 accent color variables. -/
theorem theme_css_var_count_counterexample :
    (getThemeCSSColorVars rosePineTheme).length = 26 ∧
    ¬ (getThemeCSSColorVars rosePineTheme).length = 25 := by
  decide

/-- C9 (amended): for every theme value, the server-side `getThemeCSS` and
the client-side `applyThemeToDOM` agree on the theme's color variables:
the 26 `--color-*` custom properties emitted in `getThemeCSS`'s `:root`
block are exactly, in order and value, the color properties
`applyThemeToDOM` sets, each drawn from the same theme field; and in the
full `applyThemeToDOM` those 26 color properties come first, followed by
the spacing, font-size and border-radius variables. -/
theorem theme_css_client_server_agree (t : Theme)
    (spacing fontSizes radii : List (String × String)) :
    getThemeCSSColorVars t = applyThemeToDOMColorVars t ∧
    (getThemeCSSColorVars t).length = 26 ∧
    (applyThemeToDOM t spacing fontSizes radii).take 26 = getThemeCSSColorVars t := by
  refine ⟨rfl, rfl, ?_⟩
  have hlen : (applyThemeToDOMColorVars t).length = 26 := rfl
  rw [applyThemeToDOM, List.append_assoc, List.append_assoc,
    List.take_left' hlen]
  rfl

/-- C10: `getClasses 'form'` with `inline = true` ignores any accumulated
base/variant/size classes and returns the form `labelInline` string
("text-sm text-primary"), with a space and `className` appended exactly
when `className` is non-empty; and for any component name not in the
design system, `getClasses` returns `className` unchanged. -/
theorem get_classes_form_inline :
    (∀ (v s : Option String) (cn : String),
        getClasses "form" { variant := v, size := s, inline := true } cn =
          if cn = "" then "text-sm text-primary"
          else "text-sm text-primary" ++ " " ++ cn) ∧
    (∀ (name : String) (opts : ClassOptions) (cn : String),
        lookupComponent name = none → getClasses name opts cn = cn) := by
  constructor
  · intro v s cn
    have hf : lookupComponent "form" =
        some { labelInline := some "text-sm text-primary" } := rfl
    cases v <;> cases s <;> simp [getClasses, hf]
  · intro name opts cn h
    simp [getClasses, h]

/-- C10 witness: concrete instances — the inline form label with an extra
class name, and an unknown component name passing `className` through. -/
theorem get_classes_form_inline_witness :
    getClasses "form" { inline := true } "extra" = "text-sm text-primary extra" ∧
    lookupComponent "missing" = none ∧
    getClasses "missing" { variant := some "primary" } "x" = "x" :=
  ⟨(get_classes_form_inline.1 none none "extra").trans (by decide),
   rfl,
   get_classes_form_inline.2 "missing" { variant := some "primary" } "x" rfl⟩

/-- C2 counterexample: deleting monitor "m1" removes its `monitor_results`
rows (the declared `ON DELETE CASCADE`), but `peer_results` declares no
foreign key, so a peer-sourced result row referencing "m1" survives the
delete — the claim's "no result row referencing that monitor_uuid remains,
for every result, both locally produced and peer-sourced" fails. -/
theorem delete_cascade_counterexample :
    ((deleteMonitor exampleDb "m1").monitor_results.all
      fun r => r.monitor_uuid != "m1") = true ∧
    ((deleteMonitor exampleDb "m1").peer_results.all
      fun p => p.monitor_uuid != "m1") = false := by
  decide

/-- C2 (amended): deleting the monitors row with a given uuid cascades the
removal of all locally produced `monitor_results` rows referencing it, and
leaves the monitors table without that uuid; `peer_results` rows are not
removed (the table declares no foreign key on `monitor_uuid`). -/
theorem delete_monitor_cascade (db : Db) (uuid : String) :
    ((deleteMonitor db uuid).monitors.all fun m => m.uuid != uuid) = true ∧
    ((deleteMonitor db uuid).monitor_results.all
      fun r => r.monitor_uuid != uuid) = true ∧
    (deleteMonitor db uuid).peer_results = db.peer_results := by
  refine ⟨?_, ?_, rfl⟩ <;>
    simp [deleteMonitor, List.all_eq_true, List.mem_filter]

/-- C6: sign/verify round-trip — for every `Result` payload and every node
identity, verifying the node's own signature over the payload's canonical
bytes against the node's own peer id succeeds. -/
theorem sign_verify_roundtrip (id : Identity) (p : ResultPayload) :
    verify p (id.sign p) id.peerId = true := by
  simp [verify, verifyBytes, Identity.sign, signBytes, Identity.peerId]

/-- C1: peer-result ingestion only trusts verified results — a raw result
whose signature does not verify leaves the state untouched (it is never
stored); every stored `peer_results` row that ingestion adds has
`verified = true` and a signature that verifies against its `peer_id`; and
every result ingestion forwards to the aggregator verifies as well. -/
theorem ingest_verified_only :
    (∀ (st : NodeState) (r : RawResult),
        verify r.toResultPayload r.signature r.peer_id = false →
        (ingest st r).2 = st) ∧
    (∀ (st : NodeState) (r : RawResult) (row : StoredPeerResult),
        row ∈ ((ingest st r).2).peer_results →
        row ∈ st.peer_results ∨
          (row.verified = true ∧
            verify row.toResultPayload row.signature row.peer_id = true)) ∧
    (∀ (st : NodeState) (r : RawResult) (x : RawResult),
        x ∈ ((ingest st r).2).aggregatorQueue →
        x ∈ st.aggregatorQueue ∨
          verify x.toResultPayload x.signature x.peer_id = true) := by
  refine ⟨?_, ?_, ?_⟩
  · intro st r h
    simp only [ingest]
    split_ifs <;> simp_all
  · intro st r row hmem
    simp only [ingest] at hmem
    split_ifs at hmem with h1 h2 h3 h4 h5
    all_goals first
      | exact Or.inl hmem
      | (rcases List.mem_cons.mp hmem with hrow | hold
         · subst hrow
           exact Or.inr ⟨rfl, h3⟩
         · exact Or.inl hold)
  · intro st r x hmem
    simp only [ingest] at hmem
    split_ifs at hmem with h1 h2 h3 h4 h5
    all_goals first
      | exact Or.inl hmem
      | (rcases List.mem_cons.mp hmem with hx | hold
         · subst hx
           exact Or.inr h3
         · exact Or.inl hold)

/-- C1 witness: a result signed by the wrong key is discarded without
touching the state, and the row ingestion stores for a correctly signed
result is `verified = true` with a verifying signature. -/
theorem ingest_verified_only_witness :
    (ingest exampleState badRaw).2 = exampleState ∧
    (exampleStoredRow.verified = true ∧
      verify exampleStoredRow.toResultPayload exampleStoredRow.signature
        exampleStoredRow.peer_id = true) :=
  ⟨ingest_verified_only.1 exampleState badRaw (by decide),
   (ingest_verified_only.2.1 exampleState exampleRaw exampleStoredRow
      (by decide)).resolve_left (by decide)⟩

/-- Stored rows with a given key are absent exactly when the duplicate
check fails. -/
theorem isDuplicate_false_of_countKey_zero (st : NodeState) (r : RawResult)
    (h0 : countKey st r = 0) : isDuplicate st r = false := by
  have hnil : st.peer_results.filter (sameKey r) = [] :=
    List.length_eq_zero.mp h0
  have hall := List.filter_eq_nil_iff.mp hnil
  simp only [isDuplicate, List.any_eq_false]
  intro q hq
  exact hall q hq

/-- A duplicate submission that passes the structural, monitor and
signature checks is an accepted no-op. -/
theorem ingest_dup_noop (st : NodeState) (r : RawResult)
    (hS : structuralOk r = true)
    (hM : r.monitor_uuid ∈ st.monitors)
    (hV : verify r.toResultPayload r.signature r.peer_id = true)
    (hD : isDuplicate st r = true) :
    ingest st r = (.accepted, st) := by
  simp [ingest, hS, hM, hV, hD]

/-- C7: ingestion is idempotent on `(monitor_uuid, peer_id, timestamp)` —
when no row with a result's key is stored and the result is accepted,
exactly one row with that key is stored, and submitting the same result
again is an accepted no-op (same state, not an error). -/
theorem ingest_idempotent (st : NodeState) (r : RawResult)
    (h0 : countKey st r = 0) (h1 : (ingest st r).1 = .accepted) :
    countKey (ingest st r).2 r = 1 ∧
    ingest (ingest st r).2 r = (.accepted, (ingest st r).2) := by
  have hdup := isDuplicate_false_of_countKey_zero st r h0
  have hA : structuralOk r = true := by
    by_contra hA
    simp [ingest, hA] at h1
  have hB : r.monitor_uuid ∈ st.monitors := by
    by_contra hB
    simp [ingest, hA, hB] at h1
  have hC : verify r.toResultPayload r.signature r.peer_id = true := by
    by_contra hC
    simp at hC
    simp [ingest, hA, hB, hC] at h1
  have hE : withinSkew st r.timestamp = true := by
    by_contra hE
    simp at hE
    simp [ingest, hA, hB, hC, hdup, hE] at h1
  have hstep : ingest st r =
      (.accepted,
        { st with
          peer_results := { toRawResult := r, verified := true } :: st.peer_results
          aggregatorQueue := r :: st.aggregatorQueue }) := by
    simp [ingest, hA, hB, hC, hdup, hE]
  rw [hstep]
  constructor
  · have hk : sameKey r { toRawResult := r, verified := true } = true := by
      simp [sameKey]
    show (List.filter (sameKey r)
      ({ toRawResult := r, verified := true } :: st.peer_results)).length = 1
    rw [List.filter_cons, if_pos hk]
    simp only [List.length_cons]
    unfold countKey at h0
    omega
  · refine ingest_dup_noop _ r hA hB hC ?_
    simp [isDuplicate, sameKey]

/-- C7 witness: a fresh, well-signed result for a known monitor is
accepted, stored once, and its resubmission is an accepted no-op. -/
theorem ingest_idempotent_witness :
    countKey exampleState exampleRaw = 0 ∧
    (ingest exampleState exampleRaw).1 = .accepted ∧
    countKey (ingest exampleState exampleRaw).2 exampleRaw = 1 ∧
    ingest (ingest exampleState exampleRaw).2 exampleRaw =
      (.accepted, (ingest exampleState exampleRaw).2) :=
  ⟨rfl, rfl,
   (ingest_idempotent exampleState exampleRaw rfl rfl).1,
   (ingest_idempotent exampleState exampleRaw rfl rfl).2⟩

/-- C8: status derivation — a successful response within the timeout with
latency at most the degraded-threshold yields `Up`; a successful response
with latency above the threshold yields `Degraded`; elapsing the timeout
without a response yields `Timeout`; a transport/DNS failure yields
`Error`; and every derived status is one of the five schema values 'Up',
'Down', 'Timeout', 'Error', 'Degraded'. -/
theorem derive_status_cases :
    (∀ (latency code thr : Nat), latency ≤ thr →
        deriveStatus (.responded latency code) thr = .Up) ∧
    (∀ (latency code thr : Nat), thr < latency →
        deriveStatus (.responded latency code) thr = .Degraded) ∧
    (∀ thr : Nat, deriveStatus .timedOut thr = .Timeout) ∧
    (∀ (msg : String) (thr : Nat), deriveStatus (.transportError msg) thr = .Error) ∧
    (∀ (o : RawOutcome) (thr : Nat),
        statusEnum.contains (deriveStatus o thr).asString = true) := by
  refine ⟨?_, ?_, ?_, ?_, ?_⟩
  · intro latency code thr h
    simp [deriveStatus, Nat.not_lt.mpr h]
  · intro latency code thr h
    simp [deriveStatus, h]
  · intro thr
    rfl
  · intro msg thr
    rfl
  · intro o thr
    cases o with
    | responded latency code =>
      simp only [deriveStatus]
      split <;> rfl
    | timedOut => rfl
    | transportError msg => rfl

/-- C8 witness: concrete derivations for the two hypothesis-guarded cases
(latency 20 ≤ threshold 100, and latency 250 > threshold 100). -/
theorem derive_status_cases_witness :
    deriveStatus (.responded 20 200) 100 = .Up ∧
    deriveStatus (.responded 250 200) 100 = .Degraded :=
  ⟨derive_status_cases.1 20 200 100 (by decide),
   derive_status_cases.2.1 250 200 100 (by decide)⟩

/-- The majority pick maximizes the per-class count, and on equal counts
prefers the more severe class. -/
theorem pickStatus_max (cU cD cDn : Nat) (j : AggClass) :
    classCount j cU cD cDn ≤ classCount (pickStatus cU cD cDn) cU cD cDn ∧
    (classCount j cU cD cDn = classCount (pickStatus cU cD cDn) cU cD cDn →
      sev j ≤ sev (pickStatus cU cD cDn)) := by
  unfold pickStatus
  split_ifs with h1 h2 <;> cases j <;> simp [classCount, sev] <;> omega

/-- Per-class counts as selections. -/
theorem countClass_eq (fr : List Report) (k : AggClass) :
    countClass k fr =
      classCount k (countClass .up fr) (countClass .degraded fr)
        (countClass .down fr) := by
  cases k <;> rfl

/-- C4: when quorum is reached, `status_of` returns the majority status
among fresh reports (the chosen class's count is maximal, and any class
tying it is no more severe, i.e. ties break toward `Down` > `Degraded` >
`Up`), never `Unknown`, with `contributing_peer_count` the number of fresh
reports. -/
theorem status_of_majority_tiebreak (assignSize now W : Nat)
    (reports : List Report)
    (hq : quorumThreshold assignSize ≤ (freshReports now W reports).length) :
    statusOf assignSize now W reports =
      ((pickStatus (countClass .up (freshReports now W reports))
          (countClass .degraded (freshReports now W reports))
          (countClass .down (freshReports now W reports))).toAgg,
        (freshReports now W reports).length) ∧
    (statusOf assignSize now W reports).1 ≠ AggStatus.Unknown ∧
    (∀ j : AggClass,
      countClass j (freshReports now W reports) ≤
        countClass (pickStatus (countClass .up (freshReports now W reports))
          (countClass .degraded (freshReports now W reports))
          (countClass .down (freshReports now W reports)))
          (freshReports now W reports) ∧
      (countClass j (freshReports now W reports) =
          countClass (pickStatus (countClass .up (freshReports now W reports))
            (countClass .degraded (freshReports now W reports))
            (countClass .down (freshReports now W reports)))
            (freshReports now W reports) →
        sev j ≤ sev (pickStatus (countClass .up (freshReports now W reports))
          (countClass .degraded (freshReports now W reports))
          (countClass .down (freshReports now W reports))))) := by
  have hs : statusOf assignSize now W reports =
      ((pickStatus (countClass .up (freshReports now W reports))
          (countClass .degraded (freshReports now W reports))
          (countClass .down (freshReports now W reports))).toAgg,
        (freshReports now W reports).length) := by
    unfold statusOf
    rw [if_neg (Nat.not_lt.mpr hq)]
  refine ⟨hs, ?_, ?_⟩
  · rw [hs]
    cases hp : pickStatus (countClass .up (freshReports now W reports))
        (countClass .degraded (freshReports now W reports))
        (countClass .down (freshReports now W reports)) <;>
      simp [AggClass.toAgg]
  · intro j
    have hmax := pickStatus_max (countClass .up (freshReports now W reports))
      (countClass .degraded (freshReports now W reports))
      (countClass .down (freshReports now W reports)) j
    rw [← countClass_eq (freshReports now W reports) j,
      ← countClass_eq (freshReports now W reports)
        (pickStatus (countClass .up (freshReports now W reports))
          (countClass .degraded (freshReports now W reports))
          (countClass .down (freshReports now W reports)))] at hmax
    exact hmax

/-- C4 witness: five fresh `Up` reports and two fresh `Down` reports give
aggregate `Up` with `contributing_peer_count = 7` (quorum 3 of an
assignment set of 5 is reached). -/
theorem status_of_majority_tiebreak_witness :
    quorumThreshold 5 ≤ (freshReports 100 60 exampleReports).length ∧
    statusOf 5 100 60 exampleReports = (AggStatus.Up, 7) :=
  ⟨by decide,
   (status_of_majority_tiebreak 5 100 60 exampleReports (by decide)).1.trans
     (by decide)⟩

/-- C5: with fewer fresh reports than the quorum threshold (default: a
majority of the assignment set), `status_of` returns `Unknown` — not `Up`,
`Down` or `Degraded` — with the fresh-report count. -/
theorem status_of_below_quorum_unknown (assignSize now W : Nat)
    (reports : List Report)
    (h : (freshReports now W reports).length < quorumThreshold assignSize) :
    statusOf assignSize now W reports =
      (AggStatus.Unknown, (freshReports now W reports).length) := by
  unfold statusOf
  rw [if_pos h]

/-- C5 witness: with only 1 of 5 assigned peers reporting within the
window (quorum 3), `status_of` is `Unknown`. -/
theorem status_of_below_quorum_unknown_witness :
    (freshReports 1000 60 exampleStaleReports).length < quorumThreshold 5 ∧
    statusOf 5 1000 60 exampleStaleReports = (AggStatus.Unknown, 1) :=
  ⟨by decide,
   (status_of_below_quorum_unknown 5 1000 60 exampleStaleReports
      (by decide)).trans (by decide)⟩

/-- A cache hit returns a value recorded for its exact key. -/
theorem findCache_mem
    {c : List ((String × List Peer × Nat) × List String)}
    {k : String × List Peer × Nat} {v : List String}
    (h : findCache c k = some v) : (k, v) ∈ c := by
  induction c with
  | nil => simp [findCache] at h
  | cons e es ih =>
    by_cases he : e.1 = k
    · rw [findCache, if_pos he] at h
      cases e with
      | mk k0 v0 =>
        cases h
        cases he
        exact List.mem_cons_self _ _
    · rw [findCache, if_neg he] at h
      exact List.mem_cons_of_mem _ (ih h)

/-- With a consistent cache, an engine invocation returns exactly the pure
`assign` value for its inputs. -/
theorem engineAssign_fst (st : EngineState) (m : String) (ps : List Peer)
    (r : Nat) (h : cacheOk st) :
    (engineAssign st m ps r).1 = assign st.localId m ps r := by
  unfold engineAssign
  cases hfc : findCache st.cache (m, ps, r) with
  | none => rfl
  | some out => exact h _ (findCache_mem hfc)

/-- C3: `AssignmentEngine.assign` is deterministic — two invocations with
identical inputs `(monitor_uuid, peer set, redundancy_factor)` on engines
with the same configured local id and any consistent cache state produce
identical output, which is the value of the pure function `assign` of the
inputs (no dependence on hidden state). -/
theorem assign_deterministic (m : String) (ps : List Peer) (r : Nat)
    (s1 s2 : EngineState) (hloc : s1.localId = s2.localId)
    (h1 : cacheOk s1) (h2 : cacheOk s2) :
    (engineAssign s1 m ps r).1 = (engineAssign s2 m ps r).1 ∧
    (engineAssign s1 m ps r).1 = assign s1.localId m ps r := by
  have e1 := engineAssign_fst s1 m ps r h1
  have e2 := engineAssign_fst s2 m ps r h2
  exact ⟨by rw [e1, e2, hloc], e1⟩

/-- C3 witness: an engine with an empty cache and an engine whose cache
already holds the assignment for ("m1", examplePeers, 2) agree on the
output, which walks the ring past the offline peer. -/
theorem assign_deterministic_witness :
    engineA.localId = engineB.localId ∧
    cacheOk engineA ∧ cacheOk engineB ∧
    (engineAssign engineA "m1" examplePeers 2).1 =
      (engineAssign engineB "m1" examplePeers 2).1 ∧
    (engineAssign engineA "m1" examplePeers 2).1 = ["pA", "pB"] := by
  have hA : cacheOk engineA := by
    intro e he
    simp [engineA] at he
  have hB : cacheOk engineB := by
    intro e he
    rcases List.mem_singleton.mp he with rfl
    rfl
  refine ⟨rfl, hA, hB, ?_, ?_⟩
  · exact (assign_deterministic "m1" examplePeers 2 engineA engineB rfl hA hB).1
  · rw [(assign_deterministic "m1" examplePeers 2 engineA engineB rfl hA hB).2]
    decide

end Uppe
